import Mathlib

/-!
Verification of the hyphen-rtsp-tunnel gateway against its specification.

The definitions below are a shallow embedding of the TypeScript sources:
  - src/services/rtsp-tunnel-gateway.ts  (session handshake, capture
    coordination, loopback proxy)
  - src/services/events.ts               (DeviceAuth.verify)
  - src/services/storage-worker.ts       (sanitizeTzOffsetHours,
    dayFromCapturedAt)
Each definition carries a comment pointing at the source lines it embeds.
JavaScript strings are modelled through their character lists; JavaScript
numbers are modelled as exact rationals plus a non-finite marker where
NaN or infinities matter.
-/

namespace RtspTunnel

/-! ## JavaScript string helpers

Models of the string operations used by the gateway message handler:
String.prototype.trim, String.prototype.toUpperCase (the gateway only
uppercases ASCII command verbs), String.prototype.startsWith and
split on one-or-more-whitespace. -/

/-- Drop whitespace from both ends of a character list (String.prototype.trim). -/
def trimList (l : List Char) : List Char :=
  ((l.dropWhile Char.isWhitespace).reverse.dropWhile Char.isWhitespace).reverse

def jsTrim (s : String) : String :=
  String.mk (trimList s.data)

/-- ASCII uppercasing; the handler only compares against ASCII verbs. -/
def jsToUpper (s : String) : String :=
  String.mk (s.data.map Char.toUpper)

def isPrefixList : List Char → List Char → Bool
  | [], _ => true
  | _ :: _, [] => false
  | a :: as, b :: bs => a == b && isPrefixList as bs

/-- Model of s.startsWith(p). -/
def jsStartsWith (s p : String) : Bool :=
  isPrefixList p.data s.data

/-- Split a character list at runs of whitespace, dropping empty pieces.
This equals JavaScript split on one-or-more-whitespace for the strings the
gateway feeds it, which are always trimmed first (so there is no leading
empty piece). -/
def splitWsAux : List Char → List Char → List (List Char)
  | [], acc => if acc.isEmpty then [] else [acc.reverse]
  | c :: cs, acc =>
      if c.isWhitespace then
        if acc.isEmpty then splitWsAux cs [] else acc.reverse :: splitWsAux cs []
      else splitWsAux cs (c :: acc)

def splitWs (s : String) : List String :=
  (splitWsAux s.data []).map String.mk

/-! ## safeDeviceId  (rtsp-tunnel-gateway.ts lines 214-216)

Source:  id.replace(/[^a-zA-Z0-9._-]/g, "_").slice(0, 64) || "unknown"
The replacement maps every character outside the class to an underscore;
slice keeps the first 64 characters; the JavaScript or-else yields
"unknown" exactly when the sliced string is empty. -/

def allowedDeviceChar (c : Char) : Bool :=
  c.isUpper || c.isLower || c.isDigit || c == '.' || c == '_' || c == '-'

def safeDeviceId (id : String) : String :=
  let replaced := id.data.map (fun c => if allowedDeviceChar c then c else '_')
  let sliced := replaced.take 64
  if sliced.isEmpty then ("unknown") else String.mk sliced

/-- The output shape claimed by the specification: one to sixty-four
characters, all in the class a-zA-Z0-9._- . -/
def validDeviceId (s : String) : Prop :=
  1 ≤ s.data.length ∧ s.data.length ≤ 64 ∧ ∀ c ∈ s.data, allowedDeviceChar c = true

theorem allowedDeviceChar_sanitized (c : Char) :
    allowedDeviceChar (if allowedDeviceChar c then c else '_') = true := by
  by_cases h : allowedDeviceChar c = true
  · simp [h]
  · simp only [h, if_neg, Bool.false_eq_true, not_false_eq_true, if_false]
    decide

theorem map_sanitize_of_allowed (l : List Char)
    (h : ∀ c ∈ l, allowedDeviceChar c = true) :
    l.map (fun c => if allowedDeviceChar c then c else '_') = l := by
  induction l with
  | nil => rfl
  | cons a as ih =>
      have ha : allowedDeviceChar a = true := h a (List.mem_cons_self a as)
      simp only [List.map_cons, ha, if_pos]
      exact congrArg (a :: ·) (ih (fun c hc => h c (List.mem_cons_of_mem a hc)))

theorem validDeviceId_safeDeviceId (id : String) : validDeviceId (safeDeviceId id) := by
  unfold safeDeviceId
  dsimp only
  by_cases he :
      ((id.data.map (fun c => if allowedDeviceChar c then c else '_')).take 64).isEmpty
  · simp only [he, if_pos]
    refine ⟨?_, ?_, ?_⟩ <;> decide
  · simp only [he, Bool.false_eq_true, if_false]
    refine ⟨?_, ?_, ?_⟩
    · rcases hnil : (id.data.map (fun c => if allowedDeviceChar c then c else '_')).take 64 with
        _ | ⟨a, as⟩
      · rw [hnil] at he; simp at he
      · simp
    · simp only [String.length, List.length_take]
      exact min_le_left 64 (id.data.map (fun c => if allowedDeviceChar c then c else '_')).length
    · intro c hc
      have hc2 : c ∈ id.data.map (fun c => if allowedDeviceChar c then c else '_') :=
        List.take_subset 64 _ hc
      rcases List.mem_map.mp hc2 with ⟨a, _, rfl⟩
      exact allowedDeviceChar_sanitized a

theorem safeDeviceId_of_valid (s : String) (h : validDeviceId s) : safeDeviceId s = s := by
  rcases h with ⟨h1, h2, h3⟩
  unfold safeDeviceId
  dsimp only
  rw [map_sanitize_of_allowed s.data h3, List.take_of_length_le h2]
  have hne : s.data.isEmpty = false := by
    cases hd : s.data with
    | nil => rw [hd] at h1; simp at h1
    | cons a as => simp
  simp only [hne, Bool.false_eq_true, if_false]

/-- Claim C9: safeDeviceId is idempotent, and for every input string its
output has between one and sixty-four characters, all drawn from the class
a-zA-Z0-9._- (the regular expression of the specification). -/
theorem safeDeviceId_idempotent_and_valid (id : String) :
    safeDeviceId (safeDeviceId id) = safeDeviceId id ∧ validDeviceId (safeDeviceId id) :=
  ⟨safeDeviceId_of_valid _ (validDeviceId_safeDeviceId id), validDeviceId_safeDeviceId id⟩

/-! ## Gateway configuration (rtsp-tunnel-gateway.ts lines 49-70)

Environment-driven process constants; only the fields the verified claims
consult are kept. -/

structure GWConfig where
  requireAuth : Bool
  autoCapture : Bool
  camUser : String
  camPass : String
  rtspPath : String
deriving DecidableEq

/-! ## parseHello (rtsp-tunnel-gateway.ts lines 441-457) -/

structure HelloParsed where
  payloadId : Option String
  deviceId : String
deriving DecidableEq

/-- Parse a HELLO line.  Source: trim, split on whitespace runs; fewer than
two parts is invalid; the verb is compared uppercased; two parts means
HELLO deviceId, three or more means HELLO payloadId deviceId.  A falsy
(empty) payload part becomes null. -/
def parseHello (msg : String) : Option HelloParsed :=
  let parts := splitWs (jsTrim msg)
  if parts.length < 2 then none
  else if jsToUpper (parts.getD 0 ("")) != ("HELLO") then none
  else if parts.length == 2 then some ⟨none, parts.getD 1 ("")⟩
  else some ⟨(if parts.getD 1 ("") == ("") then none else some (parts.getD 1 (""))),
             parts.getD 2 ("")⟩

/-! ## Text message handler (rtsp-tunnel-gateway.ts lines 536-611)

The per-session fields the handler reads and writes, and the handler
itself as a pure function.  Awaited collaborator results are passed as
arguments: freshNonce stands for makeNonceB64 (line 561), verifyAuth for
the awaited verifyAuth call (lines 589-593), tz for the awaited
pullDeviceTimezoneOffsetHours result (line 551), now for Date.now. -/

structure MsgSession where
  deviceId : String
  payloadId : Option String
  nonceB64 : Option String
  authed : Bool
  helloAt : Option Nat
  tzOffsetHours : Option ℚ
deriving DecidableEq

structure TextOut where
  session : MsgSession
  sent : List String
  wsCloseRequested : Bool
  autoCaptureInvoked : Bool
deriving DecidableEq

def onTextMessage (cfg : GWConfig) (s : MsgSession) (raw : String)
    (freshNonce : String) (verifyAuth : String → String → String → Bool)
    (tz : Option ℚ) (now : Nat) : TextOut :=
  let msg := jsTrim raw
  if jsStartsWith (jsToUpper msg) ("HELLO ") then
    match parseHello msg with
    | none => ⟨s, [("HELLO_FAIL invalid_format")], false, false⟩
    | some pr =>
        let s1 : MsgSession :=
          { s with payloadId := pr.payloadId
                   deviceId := safeDeviceId pr.deviceId
                   helloAt := some now
                   tzOffsetHours := tz
                   nonceB64 := some freshNonce }
        if cfg.requireAuth then
          ⟨s1, [("CHAL ") ++ freshNonce], false, false⟩
        else
          ⟨{ s1 with authed := true }, [("CHAL ") ++ freshNonce, ("AUTH_OK")], false, true⟩
  else if jsStartsWith (jsToUpper msg) ("AUTH ") then
    let parts := splitWs msg
    let devId := safeDeviceId (parts.getD 1 ("unknown"))
    let sigB64 := parts.getD 2 ("")
    match s.nonceB64 with
    | none => ⟨s, [("AUTH_FAIL no_chal")], false, false⟩
    | some nonce =>
        if s.deviceId != ("unknown") && devId != s.deviceId then
          ⟨s, [("AUTH_FAIL device_mismatch")], false, false⟩
        else
          let s2 : MsgSession :=
            if s.deviceId == ("unknown") then { s with deviceId := devId } else s
          -- the awaited this.verifyAuth(session.deviceId, session.nonceB64, sigB64)
          if verifyAuth s2.deviceId nonce sigB64 then
            ⟨{ s2 with authed := true }, [("AUTH_OK")], false, true⟩
          else
            ⟨{ s2 with authed := false }, [("AUTH_FAIL verify_failed")],
             cfg.requireAuth, false⟩
  else
    -- unknown text lines are ignored (the handler falls through, line 611)
    ⟨s, [], false, false⟩

/-! ## Claim C3: transitions of the authed flag

Concrete scenario: REQUIRE_AUTH off, a session that completed HELLO (the
HELLO branch set authed to true and replied AUTH_OK), then an AUTH message
whose signature does not verify. -/

def cfgNoAuth : GWConfig := ⟨false, true, ("admin"), ("pass"), ("/stream2")⟩

def sAfterHello : MsgSession := ⟨("devA"), some ("p1"), some ("n1"), true, some 0, none⟩

/-- Claim C3 counterexample: with REQUIRE_AUTH off, a session that is
authed after HELLO receives an AUTH message with a bad signature; the
handler sets authed back to false (rtsp-tunnel-gateway.ts line 595) while
the session stays open (no close is requested, line 597 only closes when
REQUIRE_AUTH is on).  So authed does transition true to false on an open
session, and a bad AUTH does not leave the session authed. -/
theorem authed_reverts_on_failed_auth :
    sAfterHello.authed = true ∧
    (onTextMessage cfgNoAuth sAfterHello ("AUTH devA AAAA") ("n2")
        (fun _ _ _ => false) none 1).session.authed = false ∧
    (onTextMessage cfgNoAuth sAfterHello ("AUTH devA AAAA") ("n2")
        (fun _ _ _ => false) none 1).wsCloseRequested = false :=
  ⟨rfl, by decide, by decide⟩

/-- Claim C3 (amended): the authed flag changes only in two ways: to true
(HELLO with auth disabled, or an AUTH that verifies), or to false on an
AUTH whose signature fails verification; in the latter case the handler
sends AUTH_FAIL verify_failed and requests a close exactly when
REQUIRE_AUTH is on, so with REQUIRE_AUTH off the session stays open but
its authed flag is cleared. -/
theorem authed_transition_characterization (cfg : GWConfig) (s : MsgSession)
    (raw freshNonce : String) (verifyAuth : String → String → String → Bool)
    (tz : Option ℚ) (now : Nat)
    (h : (onTextMessage cfg s raw freshNonce verifyAuth tz now).session.authed ≠ s.authed) :
    (onTextMessage cfg s raw freshNonce verifyAuth tz now).session.authed = true ∨
    ((onTextMessage cfg s raw freshNonce verifyAuth tz now).session.authed = false ∧
     (onTextMessage cfg s raw freshNonce verifyAuth tz now).sent
       = [("AUTH_FAIL verify_failed")] ∧
     (onTextMessage cfg s raw freshNonce verifyAuth tz now).wsCloseRequested
       = cfg.requireAuth) := by
  revert h
  unfold onTextMessage
  dsimp only
  repeat' split
  all_goals
    first
      | (intro h; exact absurd rfl h)
      | (intro _; left; rfl)
      | (intro _; right; exact ⟨rfl, rfl, rfl⟩)

/-- Witness for the amended claim C3 theorem at a concrete input. -/
theorem authed_transition_characterization_witness :
    ((onTextMessage cfgNoAuth sAfterHello ("AUTH devA AAAA") ("n2")
        (fun _ _ _ => false) none 1).session.authed ≠ sAfterHello.authed) ∧
    ((onTextMessage cfgNoAuth sAfterHello ("AUTH devA AAAA") ("n2")
        (fun _ _ _ => false) none 1).session.authed = true ∨
     ((onTextMessage cfgNoAuth sAfterHello ("AUTH devA AAAA") ("n2")
        (fun _ _ _ => false) none 1).session.authed = false ∧
      (onTextMessage cfgNoAuth sAfterHello ("AUTH devA AAAA") ("n2")
        (fun _ _ _ => false) none 1).sent = [("AUTH_FAIL verify_failed")] ∧
      (onTextMessage cfgNoAuth sAfterHello ("AUTH devA AAAA") ("n2")
        (fun _ _ _ => false) none 1).wsCloseRequested = cfgNoAuth.requireAuth)) :=
  ⟨by decide,
   authed_transition_characterization cfgNoAuth sAfterHello ("AUTH devA AAAA") ("n2")
     (fun _ _ _ => false) none 1 (by decide)⟩

/-! ## Claim C10: a HELLO line is fully reprocessed in any session state -/

/-- Claim C10: for every session state, including one already authed after
AUTH_OK, a text message whose trimmed uppercasing begins with the HELLO
verb is fully reprocessed: the handler overwrites payloadId and deviceId
(sanitized), re-arms helloAt and the timezone offset, mints a fresh nonce
and sends a new CHAL; when REQUIRE_AUTH is off it marks the session authed,
re-sends AUTH_OK and invokes maybeAutoCapture again.  Nothing in the
branch consults the previous authed flag or nonce
(rtsp-tunnel-gateway.ts lines 542-570). -/
theorem hello_reprocessed_in_any_state (cfg : GWConfig) (s : MsgSession)
    (raw freshNonce : String) (verifyAuth : String → String → String → Bool)
    (tz : Option ℚ) (now : Nat) (pr : HelloParsed)
    (h1 : jsStartsWith (jsToUpper (jsTrim raw)) ("HELLO ") = true)
    (h2 : parseHello (jsTrim raw) = some pr) :
    onTextMessage cfg s raw freshNonce verifyAuth tz now =
      ⟨{ s with payloadId := pr.payloadId
                deviceId := safeDeviceId pr.deviceId
                helloAt := some now
                tzOffsetHours := tz
                nonceB64 := some freshNonce
                authed := if cfg.requireAuth then s.authed else true },
       if cfg.requireAuth then [("CHAL ") ++ freshNonce]
       else [("CHAL ") ++ freshNonce, ("AUTH_OK")],
       false,
       !cfg.requireAuth⟩ := by
  unfold onTextMessage
  dsimp only
  simp only [h1, if_true, h2]
  cases hr : cfg.requireAuth <;> simp [hr]

/-- Witness for the claim C10 theorem: an authed post-AUTH_OK session under
REQUIRE_AUTH off receives a second HELLO naming a different device. -/
theorem hello_reprocessed_in_any_state_witness :
    (jsStartsWith (jsToUpper (jsTrim ("HELLO p2 devB"))) ("HELLO ") = true) ∧
    (parseHello (jsTrim ("HELLO p2 devB")) = some ⟨some ("p2"), ("devB")⟩) ∧
    onTextMessage cfgNoAuth sAfterHello ("HELLO p2 devB") ("n3")
        (fun _ _ _ => false) (some 9) 5 =
      ⟨{ sAfterHello with
            payloadId := some ("p2")
            deviceId := safeDeviceId ("devB")
            helloAt := some 5
            tzOffsetHours := some 9
            nonceB64 := some ("n3")
            authed := if cfgNoAuth.requireAuth then sAfterHello.authed else true },
       if cfgNoAuth.requireAuth then [("CHAL ") ++ ("n3")]
       else [("CHAL ") ++ ("n3"), ("AUTH_OK")],
       false,
       !cfgNoAuth.requireAuth⟩ :=
  ⟨by decide, by decide,
   hello_reprocessed_in_any_state cfgNoAuth sAfterHello ("HELLO p2 devB") ("n3")
     (fun _ _ _ => false) (some 9) 5 ⟨some ("p2"), ("devB")⟩ (by decide) (by decide)⟩

/-! ## DeviceAuth.verify (events.ts, DeviceAuth class, verify lines 96-152)

The collaborators appear as an environment:
  - fetchCert models the datasource access plus the certificate findOne
    query (lines 103-106); err means the promise rejects or ds() throws,
    noCert means the row is null or row.cert is falsy, cert carries the
    PEM text.  These lines are NOT inside a try/catch in the source.
  - b64decode models Buffer.from(sigB64, base64); its call site is wrapped
    in try/catch returning false (lines 118-126).
  - cryptoVerify models crypto.verify on (certificate, message, signature);
    its call site is wrapped in try/catch returning false (lines 128-151).
The canonical message is the exact concatenation deviceId . nonceB64
(line 115). -/

inductive FetchResult
  | err (msg : String)
  | noCert
  | cert (pem : String)
deriving DecidableEq

inductive CryptoOutcome
  | raises
  | ok (b : Bool)
deriving DecidableEq

structure AuthEnv where
  fetchCert : String → FetchResult
  b64decode : String → Except String (List Nat)
  cryptoVerify : String → String → List Nat → CryptoOutcome

namespace DeviceAuth

/-- Translation of DeviceAuth.verify.  An error value models an exception
escaping the function; only the certificate fetch can produce one, because
it is the single await outside every try/catch. -/
def verify (env : AuthEnv) (deviceId nonceB64 sigB64 : String) : Except String Bool :=
  match env.fetchCert deviceId with
  | .err m => .error m
  | .noCert => .ok false
  | .cert pem =>
      let message := deviceId ++ "." ++ nonceB64
      match env.b64decode sigB64 with
      | .error _ => .ok false
      | .ok sig =>
          match env.cryptoVerify pem message sig with
          | .raises => .ok false
          | .ok b => .ok b

end DeviceAuth

def envFetchThrows : AuthEnv :=
  ⟨fun _ => .err ("db down"), fun _ => .ok [], fun _ _ _ => .ok false⟩

def envNoCert : AuthEnv :=
  ⟨fun _ => .noCert, fun _ => .ok [], fun _ _ _ => .ok false⟩

/-- Claim C4 counterexample: when the certificate fetch fails (the
database query rejects), DeviceAuth.verify does not return false: the
rejection propagates out of verify, because the findOne await at
events.ts lines 103-106 is outside every try/catch.  This refutes the
claim that any certificate fetch failure yields false and that verify
never throws. -/
theorem verify_throws_on_fetch_failure :
    DeviceAuth.verify envFetchThrows ("devA") ("n1") ("AAAA") = .error ("db down") := rfl

/-- Claim C4 (amended): when the certificate fetch itself succeeds,
verify returns a boolean and never throws: a missing certificate, a
base64 decode that raises, and a cryptographic verification that raises
or reports false all yield false; a certificate fetch failure instead
propagates as an exception. -/
theorem verify_total_when_fetch_succeeds (env : AuthEnv)
    (deviceId nonceB64 sigB64 : String)
    (h : ∀ m, env.fetchCert deviceId ≠ FetchResult.err m) :
    (∃ b, DeviceAuth.verify env deviceId nonceB64 sigB64 = .ok b) ∧
    (env.fetchCert deviceId = .noCert →
       DeviceAuth.verify env deviceId nonceB64 sigB64 = .ok false) ∧
    (∀ pem e, env.fetchCert deviceId = .cert pem →
       env.b64decode sigB64 = .error e →
       DeviceAuth.verify env deviceId nonceB64 sigB64 = .ok false) ∧
    (∀ pem sig, env.fetchCert deviceId = .cert pem →
       env.b64decode sigB64 = .ok sig →
       env.cryptoVerify pem (deviceId ++ "." ++ nonceB64) sig ≠ CryptoOutcome.ok true →
       DeviceAuth.verify env deviceId nonceB64 sigB64 = .ok false) := by
  rcases hf : env.fetchCert deviceId with m | _ | pem
  · exact absurd hf (h m)
  · have he : DeviceAuth.verify env deviceId nonceB64 sigB64 = .ok false := by
      unfold DeviceAuth.verify
      rw [hf]
    refine ⟨⟨false, he⟩, fun _ => he, ?_, ?_⟩
    · intro pem e h1 _
      cases h1
    · intro pem sig h1 _ _
      cases h1
  · have he : DeviceAuth.verify env deviceId nonceB64 sigB64 =
        (match env.b64decode sigB64 with
         | .error _ => Except.ok false
         | .ok sig =>
             match env.cryptoVerify pem (deviceId ++ "." ++ nonceB64) sig with
             | .raises => Except.ok false
             | .ok b => Except.ok b) := by
      unfold DeviceAuth.verify
      rw [hf]
    refine ⟨?_, ?_, ?_, ?_⟩
    · rw [he]
      rcases hb : env.b64decode sigB64 with e | sig
      · exact ⟨false, rfl⟩
      · dsimp only
        rcases hc : env.cryptoVerify pem (deviceId ++ "." ++ nonceB64) sig with _ | b
        · exact ⟨false, rfl⟩
        · exact ⟨b, rfl⟩
    · intro h1
      cases h1
    · intro pem2 e h1 h2
      cases h1
      rw [he, h2]
    · intro pem2 sig h1 h2 h3
      cases h1
      rw [he, h2]
      dsimp only
      rcases hc : env.cryptoVerify pem (deviceId ++ "." ++ nonceB64) sig with _ | b
      · rfl
      · cases b
        · rfl
        · exact absurd hc h3

/-- Witness for the amended claim C4 theorem: a lookup that finds no
certificate returns a boolean (false) without throwing. -/
theorem verify_total_when_fetch_succeeds_witness :
    (∀ m, envNoCert.fetchCert ("devA") ≠ FetchResult.err m) ∧
    (∃ b, DeviceAuth.verify envNoCert ("devA") ("n1") ("AAAA") = .ok b) :=
  ⟨fun _ h => FetchResult.noConfusion h,
   (verify_total_when_fetch_succeeds envNoCert ("devA") ("n1") ("AAAA")
      (fun _ h => FetchResult.noConfusion h)).1⟩

/-! ## Day bucket (storage-worker.ts: sanitizeTzOffsetHours lines 114-120,
dayFromCapturedAt lines 122-144)

JavaScript numbers are modelled as exact rationals plus a marker for the
non-finite values (NaN and the infinities), which is all that
Number.isFinite distinguishes.  A Date value is modelled by its epoch
milliseconds; the UTC calendar getters getUTCFullYear / getUTCMonth+1 /
getUTCDate are modelled by the proleptic Gregorian civil-from-days
computation on the floor of ms / 86400000.  Math.round rounds half toward
positive infinity. -/

inductive JsNum
  | nonfinite
  | finite (q : ℚ)
deriving DecidableEq

/-- Source lines 114-120: non-finite offsets and offsets outside the
closed interval -12 to 14 become null. -/
def sanitizeTzOffsetHours : JsNum → Option ℚ
  | .nonfinite => none
  | .finite n => if n < -12 ∨ n > 14 then none else some n

def jsRound (q : ℚ) : ℤ := Int.floor (q + 1 / 2)

/-- Civil date (year, month, day) of a count of days since the Unix epoch,
the standard era-based Gregorian computation implemented by the JavaScript
UTC date getters.  All divisors are positive so Euclidean division is
floor division. -/
def civilFromDays (z0 : ℤ) : ℤ × ℤ × ℤ :=
  let z := z0 + 719468
  let era := z.ediv 146097
  let doe := z - era * 146097
  let yoe := (doe - doe.ediv 1460 + doe.ediv 36524 - doe.ediv 146096).ediv 365
  let y := yoe + era * 400
  let doy := doe - (365 * yoe + yoe.ediv 4 - yoe.ediv 100)
  let mp := (5 * doy + 2).ediv 153
  let d := doy - (153 * mp + 2).ediv 5 + 1
  let m := if mp < 10 then mp + 3 else mp - 9
  (if m ≤ 2 then y + 1 else y, m, d)

def getUTCDayTriple (ms : ℤ) : ℤ × ℤ × ℤ :=
  civilFromDays (ms.ediv 86400000)

/-- Source lines 122-144.  The capturedAt argument is the parsed Date in
epoch milliseconds; useDeviceTzOffset is the process-wide
USE_DEVICE_TZ_OFFSET flag (line 130); the offset argument is the
tzOffsetHours field of the captured event (number or null).  The source
applies the offset only when the flag is set and the value is a finite
number; the shifted time is ms + Math.round(off * 3600 * 1000). -/
def dayFromCapturedAt (useDeviceTzOffset : Bool) (capturedAtMs : ℤ)
    (tzOffsetHours : Option JsNum) : ℤ × ℤ × ℤ :=
  let off : ℚ :=
    if useDeviceTzOffset then
      match tzOffsetHours with
      | some (.finite q) => q
      | _ => 0
    else 0
  getUTCDayTriple (capturedAtMs + jsRound (off * 3600 * 1000))

/-- The day bucket the program computes for a captured event, as a
function of the raw per-device timezone offset: the gateway sanitizes the
offset at HELLO (rtsp-tunnel-gateway.ts lines 108-114), stores it on the
session, copies it into the captured event, and the storage worker feeds
it to dayFromCapturedAt (storage-worker.ts lines 69-72). -/
def dayOfCapturedEvent (useDeviceTzOffset : Bool) (capturedAtMs : ℤ)
    (rawTz : JsNum) : ℤ × ℤ × ℤ :=
  dayFromCapturedAt useDeviceTzOffset capturedAtMs
    ((sanitizeTzOffsetHours rawTz).map JsNum.finite)

/-- Claim C6: the day bucket is a pure function of capturedAt and the
timezone offset (for a fixed USE_DEVICE_TZ_OFFSET configuration it depends
on nothing else, and recomputation from equal inputs gives equal buckets:
the first conjunct states this invariance under any two raw offsets that
sanitize equally); and a raw offset that is NaN, non-finite or outside
the interval -12 to 14 is treated as 0, producing the UTC day of
capturedAt (second and third conjuncts). -/
theorem day_pure_and_tz_out_of_range_is_utc (useDeviceTzOffset : Bool)
    (capturedAtMs : ℤ) (tz : JsNum)
    (h : tz = JsNum.nonfinite ∨ ∃ q, tz = JsNum.finite q ∧ (q < -12 ∨ q > 14)) :
    (∀ tz1 tz2 : JsNum, sanitizeTzOffsetHours tz1 = sanitizeTzOffsetHours tz2 →
       dayOfCapturedEvent useDeviceTzOffset capturedAtMs tz1
         = dayOfCapturedEvent useDeviceTzOffset capturedAtMs tz2) ∧
    dayOfCapturedEvent useDeviceTzOffset capturedAtMs tz
      = getUTCDayTriple capturedAtMs ∧
    dayOfCapturedEvent useDeviceTzOffset capturedAtMs tz
      = dayOfCapturedEvent useDeviceTzOffset capturedAtMs (JsNum.finite 0) := by
  have hzero : jsRound ((0 : ℚ) * 3600 * 1000) = 0 := by
    unfold jsRound
    norm_num
  have hzero2 : jsRound ((0 : ℚ)) = 0 := by
    unfold jsRound
    norm_num
  have hsan : sanitizeTzOffsetHours tz = none := by
    rcases h with h | ⟨q, rfl, hq⟩
    · rw [h]; rfl
    · simp only [sanitizeTzOffsetHours]
      rw [if_pos hq]
  have hsan0 : sanitizeTzOffsetHours (JsNum.finite 0) = some 0 := by
    simp only [sanitizeTzOffsetHours]
    norm_num
  refine ⟨?_, ?_, ?_⟩
  · intro tz1 tz2 h12
    unfold dayOfCapturedEvent
    rw [h12]
  · unfold dayOfCapturedEvent dayFromCapturedAt
    rw [hsan]
    cases useDeviceTzOffset <;> simp [hzero, hzero2]
  · unfold dayOfCapturedEvent dayFromCapturedAt
    rw [hsan, hsan0]
    cases useDeviceTzOffset <;> simp [hzero, hzero2]

/-- Witness for the claim C6 theorem: a finite out-of-range offset of 20
hours on the epoch instant is bucketed as the UTC day. -/
theorem day_pure_and_tz_out_of_range_is_utc_witness :
    ((JsNum.finite 20) = JsNum.nonfinite ∨
      ∃ q, (JsNum.finite 20) = JsNum.finite q ∧ (q < -12 ∨ q > 14)) ∧
    dayOfCapturedEvent true 0 (JsNum.finite 20) = getUTCDayTriple 0 :=
  ⟨Or.inr ⟨20, rfl, Or.inr (by norm_num)⟩,
   (day_pure_and_tz_out_of_range_is_utc true 0 (JsNum.finite 20)
      (Or.inr ⟨20, rfl, Or.inr (by norm_num)⟩)).2.1⟩

/-! ## Capture completion (rtsp-tunnel-gateway.ts captureOnce lines 360-385,
maybeAutoCapture lines 397-438)

After the spawned ffmpeg process reports its exit code, captureOnce
throws on a non-zero code (line 377-380) and then throws if the output
file does not exist (lines 382-383); otherwise it returns the path.  The
source consults fs.existsSync only: it never reads the file size.  The
wrapper in maybeAutoCapture emits snapshot:captured exactly when
captureOnce returns, and snapshot:failed with stage capture carrying the
error message when it throws (lines 404-436). -/

structure OutFileState where
  onDisk : Bool
  size : Nat
deriving DecidableEq

/-- The tail of captureOnce from the resolved exit code on; onDisk models
fs.existsSync(outFile).  The size field of the file state is deliberately
never read, mirroring the source. -/
def captureExitResult (code : ℤ) (f : OutFileState) : Except String Unit :=
  if code ≠ 0 then .error (("ffmpeg failed (exit ") ++ toString code ++ (")"))
  else if !f.onDisk then .error ("ffmpeg success but file not found")
  else .ok ()

inductive CaptureEmission
  | captured
  | failed (stage : String) (err : String)
deriving DecidableEq

/-- The single event maybeAutoCapture emits for one finished ffmpeg run. -/
def maybeAutoCaptureEmission (code : ℤ) (f : OutFileState) : CaptureEmission :=
  match captureExitResult code f with
  | .ok _ => .captured
  | .error e => .failed ("capture") e

/-- Modelled from the spec: successful completion requires exit code 0 AND
outFile exists and is non-zero length.  Used only to compare the claimed
success condition with the one the code implements. -/
def specCaptureSuccess (code : ℤ) (f : OutFileState) : Bool :=
  code == 0 && f.onDisk && f.size != 0

/-- Claim C1 counterexample: when ffmpeg exits 0 and the output file
exists but has length zero, the code emits snapshot:captured even though
the claimed success condition (exit 0 AND exists AND non-zero length) is
false: captureOnce checks fs.existsSync only and never reads the size. -/
theorem captured_emitted_for_empty_file :
    maybeAutoCaptureEmission 0 ⟨true, 0⟩ = CaptureEmission.captured ∧
    specCaptureSuccess 0 ⟨true, 0⟩ = false := by
  constructor <;> rfl

/-- Claim C1 (amended): a snapshot:captured event is emitted iff ffmpeg
exited 0 and the output file exists (its length is not checked); in every
other case no captured event is emitted and a snapshot:failed event with
stage capture is raised instead. -/
theorem captured_iff_exit_zero_and_file_exists (code : ℤ) (f : OutFileState) :
    (maybeAutoCaptureEmission code f = CaptureEmission.captured ↔
      code = 0 ∧ f.onDisk = true) ∧
    (¬(code = 0 ∧ f.onDisk = true) →
      ∃ e, maybeAutoCaptureEmission code f = CaptureEmission.failed ("capture") e) := by
  unfold maybeAutoCaptureEmission captureExitResult
  by_cases hc : code = 0
  · cases hd : f.onDisk
    · simp [hc, hd]
    · simp [hc, hd]
  · simp [hc]

/-- Witness for the amended claim C1 theorem at a failing input. -/
theorem captured_iff_exit_zero_and_file_exists_witness :
    (¬((1 : ℤ) = 0 ∧ (OutFileState.mk false 0).onDisk = true)) ∧
    (∃ e, maybeAutoCaptureEmission 1 ⟨false, 0⟩ = CaptureEmission.failed ("capture") e) ∧
    (maybeAutoCaptureEmission 1 ⟨false, 0⟩ = CaptureEmission.captured ↔
      (1 : ℤ) = 0 ∧ (OutFileState.mk false 0).onDisk = true) :=
  ⟨by decide,
   (captured_iff_exit_zero_and_file_exists 1 ⟨false, 0⟩).2 (by decide),
   (captured_iff_exit_zero_and_file_exists 1 ⟨false, 0⟩).1⟩

/-! ## Camera profile resolution and the CAM_PASS check
(rtsp-tunnel-gateway.ts pullCameraProfile lines 264-286, buildTunnelParams
lines 288-299, captureOnce prologue lines 301-313)

pullCameraProfile returns the first sensor meta object naming one of
CAM_USER / CAM_PASS / RTSP_PATH, and null when the device has no usable
sensor metadata.  buildTunnelParams then reads cmProfile.CAM_USER with a
falsy-or-else fallback on each field; on a null profile that member read
throws a TypeError.  The captureOnce prologue checks this.camPass, the
process-wide default, and never the resolved params. -/

structure CamMeta where
  camUserMeta : Option String
  camPassMeta : Option String
  rtspPathMeta : Option String
deriving DecidableEq

structure RtspTunnelTunnelParams where
  camUser : String
  camPass : String
  rtspPath : String
deriving DecidableEq

/-- JavaScript or-else on strings: empty string and absent are falsy. -/
def jsOrDefault (v : Option String) (d : String) : String :=
  match v with
  | none => d
  | some s => if s = "" then d else s

/-- Translation of buildTunnelParams; the error value models the TypeError
thrown by reading CAM_USER on a null profile (line 294). -/
def buildTunnelParams (cfg : GWConfig) (cmProfile : Option CamMeta) :
    Except String RtspTunnelTunnelParams :=
  match cmProfile with
  | none => .error ("TypeError: cannot read properties of null")
  | some m =>
      .ok ⟨jsOrDefault m.camUserMeta cfg.camUser,
           jsOrDefault m.camPassMeta cfg.camPass,
           jsOrDefault m.rtspPathMeta cfg.rtspPath⟩

/-- Translation of the captureOnce prologue guards, in source order
(lines 305-313).  The params argument is deliberately unused by the first
guard, mirroring the source, which tests this.camPass. -/
def captureOnceGuard (cfg : GWConfig)
    (wsOpen captureActive globalCaptureInFlight authed : Bool)
    (params : RtspTunnelTunnelParams) : Except String Unit :=
  if cfg.camPass = "" then .error ("CAM_PASS is required")
  else if !wsOpen then .error ("WS not open")
  else if captureActive then .error ("Session capture already active")
  else if globalCaptureInFlight then .error ("Global capture already in progress")
  else if cfg.requireAuth && !authed then .error ("Not authenticated")
  else .ok ()

def cfgNoEnvPass : GWConfig := ⟨false, true, ("admin"), (""), ("/stream2")⟩

def metaWithPass : CamMeta := ⟨none, some ("secret"), none⟩

/-- Claim C5 (code bug): the camera profile resolution does let sensor
metadata override the process defaults per field, but the immediate
failure check is wrong in two ways.  First, with an empty process-wide
CAM_PASS and metadata CAM_PASS secret, the resolved CAM_PASS is secret
(non-empty), yet captureOnce still fails with CAM_PASS is required,
because line 305 tests this.camPass instead of params.camPass.  Second,
when the device has no camera metadata, buildTunnelParams throws instead
of falling back to the process-wide defaults, because line 294 reads a
member of null. -/
theorem cam_pass_checked_on_global_default_and_null_meta_throws :
    buildTunnelParams cfgNoEnvPass (some metaWithPass)
      = .ok ⟨("admin"), ("secret"), ("/stream2")⟩ ∧
    captureOnceGuard cfgNoEnvPass true false false true
        ⟨("admin"), ("secret"), ("/stream2")⟩
      = .error ("CAM_PASS is required") ∧
    buildTunnelParams cfgNoEnvPass none
      = .error ("TypeError: cannot read properties of null") := by
  refine ⟨?_, ?_, ?_⟩ <;> rfl

/-! ## Gateway capture coordination as a transition system

State of one replica: the session list (sessions that cleanup has deleted
from the table keep a record with inTable false, because the closures of
captureOnce still mutate the dead object), the two global capture fields,
and two allocation counters for fresh session ids and fresh accepted
loopback sockets.  Each transition below is one event-loop turn of the
source; the comment on each names the lines it embeds.  Await points in
the source are exactly the places where other transitions may interleave,
which is why the continuation of captureOnce after the spawn promise
(ffmpegDone) is a separate transition from the reservation prologue. -/

structure Sess where
  sid : Nat
  wsOpen : Bool
  helloDone : Bool
  authed : Bool
  captureActive : Bool
  capturePending : Bool
  ffmpegRunning : Bool
  proxySock : Option Nat
  inTable : Bool
  closed : Bool
deriving DecidableEq

structure GState where
  sessions : List Sess
  globalCaptureInFlight : Bool
  globalCaptureSessionId : Option Nat
  nextSid : Nat
  nextSock : Nat
deriving DecidableEq

def initState : GState := ⟨[], false, none, 0, 0⟩

def modifyIdx : List α → Nat → (α → α) → List α
  | [], _, _ => []
  | a :: t, 0, f => f a :: t
  | a :: t, n + 1, f => a :: modifyIdx t n f

theorem modifyIdx_get? (l : List α) (i j : Nat) (f : α → α) :
    (modifyIdx l i f).get? j = if j = i then (l.get? j).map f else l.get? j := by
  induction l generalizing i j with
  | nil => cases i <;> cases j <;> simp [modifyIdx]
  | cons a t ih =>
      cases i with
      | zero =>
          cases j with
          | zero => simp [modifyIdx]
          | succ j => simp [modifyIdx]
      | succ i =>
          cases j with
          | zero => simp [modifyIdx]
          | succ j =>
              show (modifyIdx t i f).get? j =
                if j + 1 = i + 1 then Option.map f (t.get? j) else t.get? j
              rw [ih i j]
              rcases eq_or_ne j i with h | h
              · subst h
                rw [if_pos rfl, if_pos rfl]
              · rw [if_neg h, if_neg (by omega)]

/-- onConnection, rtsp-tunnel-gateway.ts lines 459-487: a fresh session is
registered in the table with deviceId unknown and nothing active. -/
def freshSess (n : Nat) : Sess := ⟨n, true, false, false, false, false, false, none, true, false⟩

def applyConnect (st : GState) : GState :=
  { st with sessions := st.sessions ++ [freshSess st.nextSid],
            nextSid := st.nextSid + 1 }

/-- A text message handler turn runs only for a connection that is open. -/
def wsMsgPre (st : GState) (i : Nat) : Bool :=
  match st.sessions.get? i with
  | none => false
  | some s => s.wsOpen

/-- HELLO branch, lines 542-569: the device id becomes known and, with
REQUIRE_AUTH off, the session is immediately authed. -/
def applyHello (cfg : GWConfig) (st : GState) (i : Nat) : GState :=
  { st with sessions := (modifyIdx st.sessions i
      (fun s => { s with helloDone := true,
                         authed := if cfg.requireAuth then s.authed else true })) }

/-- AUTH branch with a verifying signature, lines 605-608. -/
def applyAuthPass (st : GState) (i : Nat) : GState :=
  { st with sessions := modifyIdx st.sessions i (fun s => { s with authed := true }) }

/-- AUTH branch with a failing signature, lines 594-596. -/
def applyAuthFail (st : GState) (i : Nat) : GState :=
  { st with sessions := modifyIdx st.sessions i (fun s => { s with authed := false }) }

/-- captureOnce prologue guards, lines 305-313, reached through
maybeAutoCapture (which requires a known device id, line 394, hence
helloDone).  The camPass test is the process-wide default. -/
def reservePre (cfg : GWConfig) (st : GState) (i : Nat) : Bool :=
  match st.sessions.get? i with
  | none => false
  | some s =>
      cfg.camPass != "" && s.wsOpen && !s.captureActive &&
      !st.globalCaptureInFlight && (!cfg.requireAuth || s.authed) && s.helloDone

/-- captureOnce lines 315-352: the reservation sets both global fields and
the session flag, and spawns ffmpeg, leaving the close continuation
pending. -/
def applyReserve (st : GState) (i : Nat) : GState :=
  match st.sessions.get? i with
  | none => st
  | some s =>
      { st with
        sessions := (modifyIdx st.sessions i
          (fun t => { t with captureActive := true, capturePending := true,
                             ffmpegRunning := true })),
        globalCaptureInFlight := true,
        globalCaptureSessionId := some s.sid }

def ffmpegDonePre (st : GState) (i : Nat) : Bool :=
  match st.sessions.get? i with
  | none => false
  | some s => s.capturePending

/-- captureOnce lines 360-375: when the ffmpeg close event resolves the
spawn promise, the continuation clears the session capture flags and then
clears BOTH global fields unconditionally, without checking that this
session still owns the reservation. -/
def applyFfmpegDone (st : GState) (i : Nat) : GState :=
  { st with
    sessions := (modifyIdx st.sessions i
      (fun t => { t with captureActive := false, capturePending := false,
                         ffmpegRunning := false })),
    globalCaptureInFlight := false,
    globalCaptureSessionId := none }

def sessionClosePre (st : GState) (i : Nat) : Bool :=
  match st.sessions.get? i with
  | none => false
  | some s => !s.closed

/-- WebSocket close or error followed by cleanup, lines 489-529: kill
ffmpeg, destroy the proxy socket, release the global slot ONLY when this
session owns it (lines 512-518), and delete the session from the table.
The captureActive and capturePending fields of the dead object are not
touched. -/
def applySessionClose (st : GState) (i : Nat) : GState :=
  match st.sessions.get? i with
  | none => st
  | some s =>
      let owner := st.globalCaptureInFlight && st.globalCaptureSessionId == some s.sid
      { st with
        sessions := (modifyIdx st.sessions i
          (fun t => { t with wsOpen := false, closed := true, ffmpegRunning := false,
                             proxySock := none, inTable := false })),
        globalCaptureInFlight := if owner then false else st.globalCaptureInFlight,
        globalCaptureSessionId := if owner then none else st.globalCaptureSessionId }

/-- this.sessions.get(sid): only sessions still registered in the table. -/
def lookupTable (st : GState) (k : Nat) : Option Sess :=
  st.sessions.find? (fun s => s.inTable && s.sid == k)

structure ProxyOut where
  state : GState
  destroyed : Bool
  framesSent : List (List Nat)
deriving DecidableEq

def bindSock (l : List Sess) (k sock : Nat) : List Sess :=
  l.map (fun s => if s.inTable && s.sid == k then { s with proxySock := some sock } else s)

/-- onProxyConnection, lines 637-652: look up the globally capturing
session; destroy the accepted socket if there is none, or it is not
captureActive, or its WebSocket is not open; otherwise bind the socket as
the session proxySock and send the one-byte OPEN frame, tag 3
(sendOpen, lines 231-236). -/
def onProxyConnection (st : GState) : ProxyOut :=
  match st.globalCaptureSessionId with
  | none => ⟨st, true, []⟩
  | some k =>
      match lookupTable st k with
      | none => ⟨st, true, []⟩
      | some s =>
          if !s.captureActive || !s.wsOpen then ⟨st, true, []⟩
          else ⟨{ st with sessions := bindSock st.sessions k st.nextSock,
                          nextSock := st.nextSock + 1 }, false, [[3]]⟩

def sockClosePre (st : GState) (i : Nat) : Bool :=
  match st.sessions.get? i with
  | none => false
  | some s => s.proxySock.isSome

/-- Close or error of the bound loopback socket, proxy cleanup lines
660-672: unbind (the source nulls proxySock only when it still is this
very socket, which is the tracked one here). -/
def applySockClose (st : GState) (i : Nat) : GState :=
  { st with sessions := modifyIdx st.sessions i (fun t => { t with proxySock := none }) }

/-- One event-loop turn of the replica. -/
inductive Step (cfg : GWConfig) : GState → GState → Prop
  | connect (st : GState) : Step cfg st (applyConnect st)
  | hello (st : GState) (i : Nat) (h : wsMsgPre st i = true) :
      Step cfg st (applyHello cfg st i)
  | authPass (st : GState) (i : Nat) (h : wsMsgPre st i = true) :
      Step cfg st (applyAuthPass st i)
  | authFail (st : GState) (i : Nat) (h : wsMsgPre st i = true) :
      Step cfg st (applyAuthFail st i)
  | reserve (st : GState) (i : Nat) (h : reservePre cfg st i = true) :
      Step cfg st (applyReserve st i)
  | ffmpegDone (st : GState) (i : Nat) (h : ffmpegDonePre st i = true) :
      Step cfg st (applyFfmpegDone st i)
  | sessionClose (st : GState) (i : Nat) (h : sessionClosePre st i = true) :
      Step cfg st (applySessionClose st i)
  | proxyAccept (st : GState) : Step cfg st (onProxyConnection st).state
  | sockClose (st : GState) (i : Nat) (h : sockClosePre st i = true) :
      Step cfg st (applySockClose st i)

def Reachable (cfg : GWConfig) (st : GState) : Prop :=
  Relation.ReflTransGen (Step cfg) initState st

/-! ## Claim C2: the single-capture invariant is violated by a reachable
interleaving

Three devices connect and HELLO under REQUIRE_AUTH off.  Session 0
reserves the slot and spawns ffmpeg; its WebSocket closes, so cleanup
kills ffmpeg, releases the slot (it is the owner) and deletes it from the
table; session 1 reserves the freed slot; now the close event of the killed ffmpeg process of session
0 is delivered, and the captureOnce continuation
releases the global slot UNCONDITIONALLY (lines 374-375), silently
dropping the reservation of session 1; session 2 then reserves.  Sessions 1
and 2 are both in the table with captureActive true. -/

def raceA : GState := applyConnect initState
def raceB : GState := applyConnect raceA
def raceC : GState := applyConnect raceB
def raceH0 : GState := applyHello cfgNoAuth raceC 0
def raceH1 : GState := applyHello cfgNoAuth raceH0 1
def raceH2 : GState := applyHello cfgNoAuth raceH1 2
def raceR0 : GState := applyReserve raceH2 0
def raceX0 : GState := applySessionClose raceR0 0
def raceR1 : GState := applyReserve raceX0 1
def raceF0 : GState := applyFfmpegDone raceR1 0
def raceR2 : GState := applyReserve raceF0 2

/-- Claim C2 (code bug): a state with two registered sessions holding
captureActive true at once is reachable, because the release in
captureOnce after ffmpeg exits does not check that the session still owns
the global reservation, unlike cleanup which does. -/
theorem two_sessions_capture_active_reachable :
    Reachable cfgNoAuth raceR2 ∧
    (raceR2.sessions.filter (fun s => s.inTable && s.captureActive)).length = 2 := by
  constructor
  · have h1 : Reachable cfgNoAuth raceA :=
      Relation.ReflTransGen.tail Relation.ReflTransGen.refl (Step.connect initState)
    have h2 : Reachable cfgNoAuth raceB :=
      Relation.ReflTransGen.tail h1 (Step.connect raceA)
    have h3 : Reachable cfgNoAuth raceC :=
      Relation.ReflTransGen.tail h2 (Step.connect raceB)
    have h4 : Reachable cfgNoAuth raceH0 :=
      Relation.ReflTransGen.tail h3 (Step.hello raceC 0 (by decide))
    have h5 : Reachable cfgNoAuth raceH1 :=
      Relation.ReflTransGen.tail h4 (Step.hello raceH0 1 (by decide))
    have h6 : Reachable cfgNoAuth raceH2 :=
      Relation.ReflTransGen.tail h5 (Step.hello raceH1 2 (by decide))
    have h7 : Reachable cfgNoAuth raceR0 :=
      Relation.ReflTransGen.tail h6 (Step.reserve raceH2 0 (by decide))
    have h8 : Reachable cfgNoAuth raceX0 :=
      Relation.ReflTransGen.tail h7 (Step.sessionClose raceR0 0 (by decide))
    have h9 : Reachable cfgNoAuth raceR1 :=
      Relation.ReflTransGen.tail h8 (Step.reserve raceX0 1 (by decide))
    have h10 : Reachable cfgNoAuth raceF0 :=
      Relation.ReflTransGen.tail h9 (Step.ffmpegDone raceR1 0 (by decide))
    exact Relation.ReflTransGen.tail h10 (Step.reserve raceF0 2 (by decide))
  · decide

/-! ## Claim C7: a session can hold a bound proxySock after captureActive
has become false

One device connects, HELLOs, reserves; ffmpeg dials the loopback proxy and
the socket is bound with the OPEN frame sent; then the ffmpeg process
close event is processed before the socket close event, so the captureOnce
continuation clears captureActive while the socket is still bound: the
unbinding happens only in the socket close handler or in cleanup. -/

def winA : GState := applyConnect initState
def winH : GState := applyHello cfgNoAuth winA 0
def winR : GState := applyReserve winH 0
def winP : GState := (onProxyConnection winR).state
def winF : GState := applyFfmpegDone winP 0

/-- Claim C7 counterexample: a reachable state in which a registered
session has captureActive false while its proxySock is still bound, so a
bound proxySock is not held exactly while captureActive is true. -/
theorem bound_sock_after_capture_inactive_reachable :
    Reachable cfgNoAuth winF ∧
    (winF.sessions.filter
      (fun s => s.inTable && !s.captureActive && s.proxySock.isSome)).length = 1 := by
  constructor
  · have h1 : Reachable cfgNoAuth winA :=
      Relation.ReflTransGen.tail Relation.ReflTransGen.refl (Step.connect initState)
    have h2 : Reachable cfgNoAuth winH :=
      Relation.ReflTransGen.tail h1 (Step.hello winA 0 (by decide))
    have h3 : Reachable cfgNoAuth winR :=
      Relation.ReflTransGen.tail h2 (Step.reserve winH 0 (by decide))
    have h4 : Reachable cfgNoAuth winP :=
      Relation.ReflTransGen.tail h3 (Step.proxyAccept winR)
    exact Relation.ReflTransGen.tail h4 (Step.ffmpegDone winP 0 (by decide))
  · decide

/-! ## Structural invariants of the replica state

Session ids are allocated from nextSid and never mutated, and bound
loopback sockets are allocated from nextSock, so ids are globally unique
and a bound socket belongs to at most one session.  These are the
well-formedness facts behind the claim that a bound proxySock belongs to
exactly one session. -/

def SidsBelow (l : List Sess) (n : Nat) : Prop :=
  ∀ i s, l.get? i = some s → s.sid < n

def SidsUnique (l : List Sess) : Prop :=
  ∀ i j si sj, i ≠ j → l.get? i = some si → l.get? j = some sj → si.sid ≠ sj.sid

def SocksBelow (l : List Sess) (n : Nat) : Prop :=
  ∀ i s k, l.get? i = some s → s.proxySock = some k → k < n

def SocksUnique (l : List Sess) : Prop :=
  ∀ i j si sj k, i ≠ j → l.get? i = some si → l.get? j = some sj →
    si.proxySock = some k → sj.proxySock ≠ some k

def GInv (st : GState) : Prop :=
  SidsBelow st.sessions st.nextSid ∧ SidsUnique st.sessions ∧
  SocksBelow st.sessions st.nextSock ∧ SocksUnique st.sessions

theorem sid_of_modify_get {l : List Sess} {i a : Nat} {f : Sess → Sess} {sa : Sess}
    (hf : ∀ s, (f s).sid = s.sid)
    (h1 : (modifyIdx l i f).get? a = some sa) :
    ∃ ta, l.get? a = some ta ∧ sa.sid = ta.sid := by
  rw [modifyIdx_get?] at h1
  by_cases hai : a = i
  · rw [if_pos hai] at h1
    rcases hm : l.get? a with _ | t
    · rw [hm] at h1; cases h1
    · rw [hm] at h1
      cases h1
      exact ⟨t, rfl, hf t⟩
  · rw [if_neg hai] at h1
    exact ⟨sa, h1, rfl⟩

theorem sock_of_modify_get {l : List Sess} {i a : Nat} {f : Sess → Sess} {sa : Sess}
    (hf : ∀ s, (f s).proxySock = s.proxySock ∨ (f s).proxySock = none)
    (h1 : (modifyIdx l i f).get? a = some sa) :
    ∃ ta, l.get? a = some ta ∧ (sa.proxySock = ta.proxySock ∨ sa.proxySock = none) := by
  rw [modifyIdx_get?] at h1
  by_cases hai : a = i
  · rw [if_pos hai] at h1
    rcases hm : l.get? a with _ | t
    · rw [hm] at h1; cases h1
    · rw [hm] at h1
      cases h1
      exact ⟨t, rfl, hf t⟩
  · rw [if_neg hai] at h1
    exact ⟨sa, h1, Or.inl rfl⟩

/-- All transition bodies either keep the proxySock of a session or clear it,
and never change its sid; such an update preserves all four invariants
(nextSid and nextSock unchanged). -/
theorem ginv_modifyIdx {st : GState} (i : Nat) {f : Sess → Sess}
    (hfsid : ∀ s, (f s).sid = s.sid)
    (hfsock : ∀ s, (f s).proxySock = s.proxySock ∨ (f s).proxySock = none)
    (h : GInv st) (gif : Bool) (gsid : Option Nat) :
    GInv { sessions := modifyIdx st.sessions i f,
           globalCaptureInFlight := gif, globalCaptureSessionId := gsid,
           nextSid := st.nextSid, nextSock := st.nextSock } := by
  obtain ⟨hb, hu, hsb, hsu⟩ := h
  refine ⟨?_, ?_, ?_, ?_⟩
  · intro a s h1
    obtain ⟨t, ht, hst⟩ := sid_of_modify_get hfsid h1
    rw [hst]
    exact hb a t ht
  · intro a b sa sb hab h1 h2
    obtain ⟨ta, hta, hsa⟩ := sid_of_modify_get hfsid h1
    obtain ⟨tb, htb, hsb2⟩ := sid_of_modify_get hfsid h2
    rw [hsa, hsb2]
    exact hu a b ta tb hab hta htb
  · intro a s k h1 hk
    obtain ⟨t, ht, hst⟩ := sock_of_modify_get hfsock h1
    rcases hst with hst | hst
    · rw [hst] at hk
      exact hsb a t k ht hk
    · rw [hst] at hk; cases hk
  · intro a b sa sb k hab h1 h2 hka hkb
    obtain ⟨ta, hta, hsa⟩ := sock_of_modify_get hfsock h1
    obtain ⟨tb, htb, hsb2⟩ := sock_of_modify_get hfsock h2
    rcases hsa with hsa | hsa
    · rcases hsb2 with hsb2 | hsb2
      · rw [hsa] at hka
        rw [hsb2] at hkb
        exact hsu a b ta tb k hab hta htb hka hkb
      · rw [hsb2] at hkb; cases hkb
    · rw [hsa] at hka; cases hka

theorem get?_concat (l : List α) (x : α) (j : Nat) :
    (l ++ [x]).get? j =
      if j < l.length then l.get? j else if j = l.length then some x else none := by
  induction l generalizing j with
  | nil =>
      cases j with
      | zero => simp
      | succ j => simp
  | cons a t ih =>
      cases j with
      | zero => simp
      | succ j =>
          show (t ++ [x]).get? j = _
          rw [ih j]
          simp only [List.length_cons]
          by_cases h1 : j < t.length
          · rw [if_pos h1, if_pos (show j + 1 < t.length + 1 by omega)]
            rfl
          · by_cases h2 : j = t.length
            · rw [if_neg h1, if_pos h2, if_neg (show ¬(j + 1 < t.length + 1) by omega),
                  if_pos (show j + 1 = t.length + 1 by omega)]
            · rw [if_neg h1, if_neg h2, if_neg (show ¬(j + 1 < t.length + 1) by omega),
                  if_neg (show ¬(j + 1 = t.length + 1) by omega)]

theorem concat_cases {l : List Sess} {x sa : Sess} {a : Nat}
    (h1 : (l ++ [x]).get? a = some sa) :
    l.get? a = some sa ∨ (a = l.length ∧ sa = x) := by
  rw [get?_concat] at h1
  by_cases hc : a < l.length
  · rw [if_pos hc] at h1
    exact Or.inl h1
  · rw [if_neg hc] at h1
    by_cases hc2 : a = l.length
    · rw [if_pos hc2] at h1
      cases h1
      exact Or.inr ⟨hc2, rfl⟩
    · rw [if_neg hc2] at h1
      cases h1

theorem ginv_connect {st : GState} (h : GInv st) : GInv (applyConnect st) := by
  obtain ⟨hb, hu, hsb, hsu⟩ := h
  refine ⟨?_, ?_, ?_, ?_⟩
  · intro a s h1
    rcases concat_cases h1 with h1 | ⟨_, rfl⟩
    · exact Nat.lt_succ_of_lt (hb a s h1)
    · exact Nat.lt_succ_self _
  · intro a b sa sb hab h1 h2
    rcases concat_cases h1 with h1 | ⟨ha, rfl⟩
    · rcases concat_cases h2 with h2 | ⟨hbn, rfl⟩
      · exact hu a b sa sb hab h1 h2
      · exact Nat.ne_of_lt (hb a sa h1)
    · rcases concat_cases h2 with h2 | ⟨hbn, rfl⟩
      · exact (Nat.ne_of_lt (hb b sb h2)).symm
      · exact absurd (ha.trans hbn.symm) hab
  · intro a s k h1 hk
    rcases concat_cases h1 with h1 | ⟨_, rfl⟩
    · exact hsb a s k h1 hk
    · cases hk
  · intro a b sa sb k hab h1 h2 hka hkb
    rcases concat_cases h1 with h1 | ⟨_, rfl⟩
    · rcases concat_cases h2 with h2 | ⟨_, rfl⟩
      · exact hsu a b sa sb k hab h1 h2 hka hkb
      · cases hkb
    · cases hka

theorem bind_cases {l : List Sess} {k n a : Nat} {sa : Sess}
    (h1 : (bindSock l k n).get? a = some sa) :
    ∃ ta, l.get? a = some ta ∧
      ((sa = { ta with proxySock := some n } ∧ (ta.inTable && ta.sid == k) = true) ∨
       (sa = ta ∧ (ta.inTable && ta.sid == k) = false)) := by
  unfold bindSock at h1
  rw [List.get?_map] at h1
  rcases hm : l.get? a with _ | t
  · rw [hm] at h1
    cases h1
  · rw [hm] at h1
    cases h1
    refine ⟨t, rfl, ?_⟩
    by_cases ht : (t.inTable && t.sid == k) = true
    · exact Or.inl ⟨by dsimp only; rw [if_pos ht], ht⟩
    · exact Or.inr ⟨by dsimp only; rw [if_neg ht], by simpa using ht⟩

theorem ginv_bind {st : GState} (k : Nat) (h : GInv st) :
    GInv { st with sessions := bindSock st.sessions k st.nextSock,
                   nextSock := st.nextSock + 1 } := by
  obtain ⟨hb, hu, hsb, hsu⟩ := h
  refine ⟨?_, ?_, ?_, ?_⟩
  · intro a s h1
    obtain ⟨t, ht, hcase⟩ := bind_cases h1
    have hs : s.sid = t.sid := by
      rcases hcase with ⟨heq, _⟩ | ⟨heq, _⟩ <;> rw [heq]
    rw [hs]
    exact hb a t ht
  · intro a b sa sb hab h1 h2
    obtain ⟨ta, hta, hca⟩ := bind_cases h1
    obtain ⟨tb, htb, hcb⟩ := bind_cases h2
    have hsida : sa.sid = ta.sid := by
      rcases hca with ⟨heq, _⟩ | ⟨heq, _⟩ <;> rw [heq]
    have hsidb : sb.sid = tb.sid := by
      rcases hcb with ⟨heq, _⟩ | ⟨heq, _⟩ <;> rw [heq]
    rw [hsida, hsidb]
    exact hu a b ta tb hab hta htb
  · intro a s k0 h1 hk
    obtain ⟨t, ht, hcase⟩ := bind_cases h1
    rcases hcase with ⟨heq, _⟩ | ⟨heq, _⟩
    · rw [heq] at hk
      obtain rfl : st.nextSock = k0 := Option.some.inj hk
      exact Nat.lt_succ_self _
    · rw [heq] at hk
      exact Nat.lt_succ_of_lt (hsb a t k0 ht hk)
  · intro a b sa sb k0 hab h1 h2 hka hkb
    obtain ⟨ta, hta, hca⟩ := bind_cases h1
    obtain ⟨tb, htb, hcb⟩ := bind_cases h2
    rcases hca with ⟨hqa, hta2⟩ | ⟨hqa, hta2⟩
    · rcases hcb with ⟨hqb, htb2⟩ | ⟨hqb, htb2⟩
      · -- both sessions match the capturing sid: impossible, sids unique
        have hsa : ta.sid = k := eq_of_beq ((Bool.and_eq_true _ _).mp hta2).2
        have hsb2 : tb.sid = k := eq_of_beq ((Bool.and_eq_true _ _).mp htb2).2
        exact absurd (hsa.trans hsb2.symm) (hu a b ta tb hab hta htb)
      · -- the other session kept an old socket, which is below nextSock
        rw [hqa] at hka
        rw [hqb] at hkb
        obtain rfl : st.nextSock = k0 := Option.some.inj hka
        exact absurd (hsb b tb st.nextSock htb hkb) (lt_irrefl _)
    · rcases hcb with ⟨hqb, htb2⟩ | ⟨hqb, htb2⟩
      · rw [hqa] at hka
        rw [hqb] at hkb
        obtain rfl : st.nextSock = k0 := Option.some.inj hkb
        exact absurd (hsb a ta st.nextSock hta hka) (lt_irrefl _)
      · rw [hqa] at hka
        rw [hqb] at hkb
        exact absurd hkb (hsu a b ta tb k0 hab hta htb hka)

theorem ginv_step {cfg : GWConfig} {st st' : GState}
    (h : GInv st) (hs : Step cfg st st') : GInv st' := by
  cases hs with
  | connect => exact ginv_connect h
  | hello i hp =>
      refine ginv_modifyIdx i ?_ ?_ h _ _
      · intro s
        rfl
      · intro s
        exact Or.inl rfl
  | authPass i hp =>
      refine ginv_modifyIdx i ?_ ?_ h _ _
      · intro s
        rfl
      · intro s
        exact Or.inl rfl
  | authFail i hp =>
      refine ginv_modifyIdx i ?_ ?_ h _ _
      · intro s
        rfl
      · intro s
        exact Or.inl rfl
  | reserve i hp =>
      unfold applyReserve
      rcases hm : st.sessions.get? i with _ | s
      · exact h
      · dsimp only
        refine ginv_modifyIdx i ?_ ?_ h _ _
        · intro s
          rfl
        · intro s
          exact Or.inl rfl
  | ffmpegDone i hp =>
      refine ginv_modifyIdx i ?_ ?_ h _ _
      · intro s
        rfl
      · intro s
        exact Or.inl rfl
  | sessionClose i hp =>
      unfold applySessionClose
      rcases hm : st.sessions.get? i with _ | s
      · exact h
      · dsimp only
        refine ginv_modifyIdx i ?_ ?_ h _ _
        · intro s
          rfl
        · intro s
          exact Or.inr rfl
  | proxyAccept =>
      unfold onProxyConnection
      rcases hg : st.globalCaptureSessionId with _ | k
      · exact h
      · dsimp only
        rcases hl : lookupTable st k with _ | s
        · exact h
        · dsimp only
          by_cases hc : (!s.captureActive || !s.wsOpen) = true
          · rw [if_pos hc]
            exact h
          · rw [if_neg hc]
            exact ginv_bind k h
  | sockClose i hp =>
      refine ginv_modifyIdx i ?_ ?_ h _ _
      · intro s
        rfl
      · intro s
        exact Or.inr rfl

theorem ginv_reachable {cfg : GWConfig} {st : GState}
    (h : Reachable cfg st) : GInv st := by
  induction h with
  | refl =>
      refine ⟨?_, ?_, ?_, ?_⟩
      · intro a s h1
        cases h1
      · intro a b sa sb hab h1
        cases h1
      · intro a s k h1
        cases h1
      · intro a b sa sb k hab h1
        cases h1
  | tail hab hbc ih => exact ginv_step ih hbc

/-- Claim C7 (amended): in every reachable replica state a bound proxySock
belongs to at most one session (sockets are bound at most once and to one
session), and a socket is bound only when the accepted connection finds
the globally capturing session registered, captureActive and with an open
WebSocket; however the bound socket may outlive captureActive: after
ffmpeg exits, the session keeps its proxySock until the socket close event
or session cleanup unbinds it, so the binding is not exactly coextensive
with captureActive. -/
theorem proxySock_unique_and_bind_guarded (cfg : GWConfig) (st : GState)
    (h : Reachable cfg st) :
    SocksUnique st.sessions ∧
    ((onProxyConnection st).destroyed = false →
      ∃ k s, st.globalCaptureSessionId = some k ∧ lookupTable st k = some s ∧
        s.captureActive = true ∧ s.wsOpen = true) := by
  refine ⟨(ginv_reachable h).2.2.2, ?_⟩
  intro hd
  unfold onProxyConnection at hd
  rcases hg : st.globalCaptureSessionId with _ | k
  · rw [hg] at hd
    cases hd
  · rw [hg] at hd
    dsimp only at hd
    rcases hl : lookupTable st k with _ | s
    · rw [hl] at hd
      cases hd
    · rw [hl] at hd
      dsimp only at hd
      by_cases hc : (!s.captureActive || !s.wsOpen) = true
      · rw [if_pos hc] at hd
        cases hd
      · have hc2 : s.captureActive = true ∧ s.wsOpen = true := by
          rcases hca : s.captureActive with _ | _
          · exact absurd (by rw [hca]; rfl) hc
          · rcases hws : s.wsOpen with _ | _
            · exact absurd (by rw [hws]; simp) hc
            · exact ⟨rfl, rfl⟩
        exact ⟨k, s, rfl, hl, hc2.1, hc2.2⟩

/-- Witness for the amended claim C7 theorem: the reachable state in which
device 0 has reserved the capture slot, just before the loopback accept. -/
theorem proxySock_unique_and_bind_guarded_witness :
    SocksUnique winR.sessions ∧
    ((onProxyConnection winR).destroyed = false →
      ∃ k s, winR.globalCaptureSessionId = some k ∧ lookupTable winR k = some s ∧
        s.captureActive = true ∧ s.wsOpen = true) :=
  proxySock_unique_and_bind_guarded cfgNoAuth winR
    (Relation.ReflTransGen.tail
      (Relation.ReflTransGen.tail
        (Relation.ReflTransGen.tail Relation.ReflTransGen.refl (Step.connect initState))
        (Step.hello winA 0 (by decide)))
      (Step.reserve winH 0 (by decide)))

/-- Claim C8: on every loopback TCP accept, if there is no globally
capturing session id, or no registered session under it, or that session
is not captureActive or its WebSocket is closed, then the accepted socket
is destroyed with no frame sent and no state change; otherwise the socket
is bound to that session as its proxySock and the single binary OPEN
frame, one byte with tag 3, is sent on the session WebSocket. -/
theorem proxy_accept_destroys_or_binds (st : GState) :
    ((st.globalCaptureSessionId = none ∨
      (∃ k, st.globalCaptureSessionId = some k ∧ lookupTable st k = none) ∨
      (∃ k s, st.globalCaptureSessionId = some k ∧ lookupTable st k = some s ∧
        (s.captureActive = false ∨ s.wsOpen = false))) →
      onProxyConnection st = ⟨st, true, []⟩) ∧
    (∀ k s, st.globalCaptureSessionId = some k → lookupTable st k = some s →
      s.captureActive = true → s.wsOpen = true →
      onProxyConnection st =
        ⟨{ st with sessions := bindSock st.sessions k st.nextSock,
                   nextSock := st.nextSock + 1 }, false, [[3]]⟩) := by
  constructor
  · intro hcase
    unfold onProxyConnection
    rcases hcase with hg | ⟨k, hg, hl⟩ | ⟨k, s, hg, hl, hcs⟩
    · rw [hg]
    · rw [hg]
      dsimp only
      rw [hl]
    · rw [hg]
      dsimp only
      rw [hl]
      dsimp only
      have hb : (!s.captureActive || !s.wsOpen) = true := by
        rcases hcs with hcs | hcs <;> rw [hcs] <;> simp
      rw [if_pos hb]
  · intro k s hg hl hca hws
    unfold onProxyConnection
    rw [hg]
    dsimp only
    rw [hl]
    dsimp only
    rw [if_neg (by rw [hca, hws]; simp)]

/-- Witness for the claim C8 theorem: with no capture in flight the
accepted socket is destroyed, and in the reachable state where device 0
holds the slot the socket is bound and the tag-3 OPEN frame is sent. -/
theorem proxy_accept_destroys_or_binds_witness :
    onProxyConnection initState = ⟨initState, true, []⟩ ∧
    onProxyConnection winR =
      ⟨{ winR with sessions := bindSock winR.sessions 0 winR.nextSock,
                   nextSock := winR.nextSock + 1 }, false, [[3]]⟩ :=
  ⟨(proxy_accept_destroys_or_binds initState).1 (Or.inl rfl),
   (proxy_accept_destroys_or_binds winR).2 0
     ⟨0, true, true, true, true, true, true, none, true, false⟩
     (by decide) (by decide) (by decide) (by decide)⟩

end RtspTunnel
